import Mathlib

/-!
Shallow embedding of the profile proto builder
(`third_party/javaprofiler/profile_proto_builder.h`): the data model
(labels, traces, samples, location interning), the trace-ingestion and
deduplication algorithm, the per-kind finalization (CPU, heap, contention)
and the heap unsampling correction.  Method bodies that are only declared
in the header are modelled from the specification document; each such
definition carries a doc comment saying so.
-/

/-- One stack frame of a `JVMPI_CallTrace`: a line number (or
byte-code index) and an opaque method handle. -/
structure Frame where
  lineno : Int
  methodId : Int
deriving DecidableEq

/-- Value and unit for a numerical label (`NumLabelValue`). -/
structure NumLabelValue where
  value : Int
  unit : String
deriving DecidableEq

/-- Label associated with a sample (`SampleLabel`): a key and either a
string payload or a numeric payload, discriminated by `is_string_label`. -/
structure SampleLabel where
  key : String
  str_label : String
  num_label : NumLabelValue
  is_string_label : Bool
deriving DecidableEq

/-- The `SampleLabel(key, str)` constructor for a string label. -/
def SampleLabel.ofString (k str : String) : SampleLabel :=
  ⟨k, str, ⟨0, ""⟩, true⟩

/-- The `SampleLabel(key, num, unit)` constructor for a numeric label. -/
def SampleLabel.ofNum (k : String) (num : Int) (unit : String) : SampleLabel :=
  ⟨k, "", ⟨num, unit⟩, false⟩

/-- `TraceAndLabels`: a borrowed pointer to a caller-owned stack trace,
modelled as an address `trace` to be dereferenced through an explicit
buffer heap, plus the labels attached to the trace. -/
structure TraceAndLabels where
  trace : Nat
  labels : List SampleLabel
deriving DecidableEq

/-- `ProfileStackTrace`: one observed occurrence worth `metric_value` of
the measured quantity, with its trace and labels. -/
structure ProfileStackTrace where
  metric_value : Int
  trace_and_labels : TraceAndLabels
deriving DecidableEq

/-- The `LocationBuilder::LocationInfo` interning key, with exactly the
five fields of the source struct: class name, function name, file name,
line number and address.  The source struct has no start-line field. -/
structure LocationInfo where
  class_name : String
  function_name : String
  file_name : String
  line_number : Int
  address : Int
deriving DecidableEq

/-- The six positional arguments of `LocationBuilder::LocationFor`,
including the `start_line` argument. -/
structure LocationArgs where
  class_name : String
  function_name : String
  file_name : String
  start_line : Int
  line_number : Int
  address : Int
deriving DecidableEq

/-- The interning key built from `LocationFor` arguments: the five
`LocationInfo` fields.  `start_line` is not part of the key. -/
def locKey (a : LocationArgs) : LocationInfo :=
  ⟨a.class_name, a.function_name, a.file_name, a.line_number, a.address⟩

/-- First-match association-list lookup, the model of an
`std::unordered_map` holding distinct keys. -/
def alookup {α : Type} [DecidableEq α] : List (α × Nat) → α → Option Nat
  | [], _ => none
  | (k, v) :: rest, key => if key = k then some v else alookup rest key

/-- State of the `LocationBuilder`: the interning map from
`LocationInfo` keys to location ids, the table of function records
(class name, function name, file name, start line) created so far, and
the next fresh location id. -/
structure LBState where
  locations : List (LocationInfo × Nat)
  functions : List (String × String × String × Int)
  nextId : Nat
deriving DecidableEq

/-- The empty `LocationBuilder` state of a fresh builder. -/
def initLB : LBState := ⟨[], [], 0⟩

/-- Modelled from the spec: the body of `LocationBuilder::LocationFor`
is not under `src/`.  Per the spec it looks up the structural key; on a
miss it creates the backing function record (if absent) and a fresh
location, inserts them into the tables and caches the location keyed by
the `LocationInfo`; on a hit it returns the cached location untouched.
The key is the source's five-field `LocationInfo`. -/
def LocationFor (st : LBState) (class_name function_name file_name : String)
    (start_line line_number : Int) (address : Int) : Nat × LBState :=
  let info : LocationInfo :=
    ⟨class_name, function_name, file_name, line_number, address⟩
  match alookup st.locations info with
  | some id0 => (id0, st)
  | none =>
      let fkey := (class_name, function_name, file_name, start_line)
      let funcs :=
        if fkey ∈ st.functions then st.functions else st.functions ++ [fkey]
      (st.nextId, ⟨st.locations ++ [(info, st.nextId)], funcs, st.nextId + 1⟩)

/-- `LocationFor` applied to a bundled argument tuple. -/
def LocationForA (st : LBState) (a : LocationArgs) : Nat × LBState :=
  LocationFor st a.class_name a.function_name a.file_name
    a.start_line a.line_number a.address

/-- A sequence of interning calls, keeping only the final state. -/
def runFor (st : LBState) (reqs : List LocationArgs) : LBState :=
  reqs.foldl (fun s a => (LocationForA s a).2) st

/-- Resolved metadata for one method handle (`MethodInfo`): class name,
method name, source file and starting line. -/
structure MethodData where
  class_name : String
  function_name : String
  file_name : String
  start_line : Int

/-- The external `ProfileFrameCache` capability: resolves a native frame
to location data and to a function name. -/
structure FrameCache where
  getLocation : Frame → LocationArgs
  getFunctionName : Frame → String

/-- The resolution environment of a builder: the optional JVMTI method
metadata capability (`jvmti_env`, null when absent) and the optional
native frame cache (`native_cache`, null when absent). -/
structure Env where
  jvmti : Option (Int → Option MethodData)
  cache : Option FrameCache

/-- Modelled from the spec: `stacktrace_decls.h` is not under `src/`;
the spec says managed versus native is decided by the frame's own
discriminator, modelled as a sentinel line-number value. -/
def kNativeFrameLineNum : Int := -1

/-- Whether a frame is a native (non-managed) frame. -/
def isNativeFrame (f : Frame) : Bool := f.lineno = kNativeFrameLineNum

/-- Modelled from the spec: the sentinel location used for frames that
fail resolution, a generic unknown-native-method location. -/
def unknownArgs : LocationArgs := ⟨"", "Unknown native method", "", 0, 0, 0⟩

/-- Modelled from the spec: the location data of one frame, as produced
by `AddJavaInfo` / `AddNativeInfo` (bodies not under `src/`).  Native
frames delegate to the frame cache when present; managed frames use the
method metadata capability, pairing the method's class, name, file and
start line with the frame's line; every resolution failure degrades to
the unknown location. -/
def frameArgs (env : Env) (f : Frame) : LocationArgs :=
  if isNativeFrame f then
    match env.cache with
    | some c => c.getLocation f
    | none => unknownArgs
  else
    match env.jvmti with
    | none => unknownArgs
    | some resolve =>
        match resolve f.methodId with
        | none => unknownArgs
        | some md =>
            ⟨md.class_name, md.function_name, md.file_name,
              md.start_line, f.lineno, 0⟩

/-- Modelled from the spec: the function name of a frame, used by the
skip-frame scan; native frames use the cache's `GetFunctionName`. -/
def frameName (env : Env) (f : Frame) : String :=
  if isNativeFrame f then
    match env.cache with
    | some c => c.getFunctionName f
    | none => unknownArgs.function_name
  else
    match env.jvmti with
    | none => unknownArgs.function_name
    | some resolve =>
        match resolve f.methodId with
        | none => unknownArgs.function_name
        | some md => md.function_name

/-- Resolve one frame through the location interner. -/
def resolveFrame (env : Env) (f : Frame) (st : LBState) : Nat × LBState :=
  LocationForA st (frameArgs env f)

/-- Resolve a list of frames in order, returning the location ids and
the final interner state. -/
def resolveFrames (env : Env) : List Frame → LBState → List Nat × LBState
  | [], st => ([], st)
  | f :: fs, st =>
      let r := resolveFrame env f st
      let rest := resolveFrames env fs r.2
      (r.1 :: rest.1, rest.2)

/-- Construction-time configuration of a builder: the sampling rate,
whether to elide top-of-stack native frames, and the skip-list of
function-name patterns. -/
structure Config where
  sampling_rate : Int
  skip_top_native_frames : Bool
  skip_frames : List String

/-- Whether the pattern list starts the character list. -/
def startsWithL : List Char → List Char → Bool
  | [], _ => true
  | _ :: _, [] => false
  | a :: as, b :: bs => a == b && startsWithL as bs

/-- Whether the first character list occurs inside the second
(the model of `std::string::find(pat) != npos`). -/
def hasSub (pat : List Char) : List Char → Bool
  | [] => pat.isEmpty
  | c :: rest => startsWithL pat (c :: rest) || hasSub pat rest

/-- Modelled from the spec: the body of
`ProfileProtoBuilder::SkipFrame` is not under `src/`; per the spec a
frame is skipped when its function name matches one of the configured
skip-list patterns (prefixes/substrings). -/
def SkipFrame (cfg : Config) (function_name : String) : Bool :=
  cfg.skip_frames.any fun pat => hasSub pat.data function_name.data

/-- Length of the longest initial segment satisfying the predicate. -/
def countWhile {α : Type} (p : α → Bool) : List α → Nat
  | [] => 0
  | a :: as => if p a then countWhile p as + 1 else 0

/-- Modelled from the spec: the body of
`ProfileProtoBuilder::SkipTopNativeFrames` is not under `src/`; per the
spec, when configured to elide top-of-stack native frames it scans from
the top of the trace until the first frame whose function name does not
match the skip-list, and returns that count; otherwise zero. -/
def SkipTopNativeFrames (cfg : Config) (env : Env) (frames : List Frame) : Nat :=
  if cfg.skip_top_native_frames then
    countWhile (fun f => SkipFrame cfg (frameName env f)) frames
  else 0

/-- An accumulated profile sample: its location ids, its labels and the
two numeric values (occurrence count and metric total). -/
structure Sample where
  location_ids : List Nat
  labels : List SampleLabel
  count : Int
  metric : Int
deriving DecidableEq

/-- Modelled from the spec: the body of
`ProfileProtoBuilder::InitSampleValues` is not under `src/`; it sets the
two numeric values of a fresh sample. -/
def InitSampleValues (s : Sample) (count metric : Int) : Sample :=
  { s with count := count, metric := metric }

/-- Modelled from the spec: the body of
`ProfileProtoBuilder::UpdateSampleValues` is not under `src/`; on a
dedup hit it adds the occurrence count and metric into the existing
sample's numeric values, touching nothing else. -/
def UpdateSampleValues (s : Sample) (count metric : Int) : Sample :=
  { s with count := s.count + count, metric := s.metric + metric }

/-- Profile document metadata: the declared sample types, the period
type, the period, the duration and the default sample type. -/
structure ProfileMeta where
  sample_types : List (String × String)
  period_type : String × String
  period : Int
  duration_nanos : Int
  default_sample_type : String
deriving DecidableEq

/-- Mutable state of a `ProfileProtoBuilder` while open: document
metadata, the configured sampling rate, the accumulated samples, the
`TraceSamples` deduplication map from structural (frame list, labels)
keys to sample indices, and the `LocationBuilder` state. -/
structure BuilderState where
  meta : ProfileMeta
  sampling_rate : Int
  samples : List Sample
  traceKeys : List ((List Frame × List SampleLabel) × Nat)
  lb : LBState
deriving DecidableEq

/-- Modelled from the spec: `TraceSamples::SampleFor` (body not under
`src/`) looks up a trace by the structural content of its frames plus
its label set — never by the buffer address — returning the sample
index on a hit. -/
def SampleFor (heap : Nat → List Frame) (st : BuilderState)
    (tal : TraceAndLabels) : Option Nat :=
  alookup st.traceKeys (heap tal.trace, tal.labels)

/-- Replace the element at an index by applying a function to it. -/
def modifyAt {α : Type} : List α → Nat → (α → α) → List α
  | [], _, _ => []
  | a :: rest, 0, f => f a :: rest
  | a :: rest, Nat.succ n, f => a :: modifyAt rest n f

/-- Modelled from the spec: the body of
`ProfileProtoBuilder::AddTrace` is not under `src/`.  Per the spec it
deduplicates through `SampleFor`; on a hit only the numeric values are
updated; on a miss it determines the skip count, resolves the remaining
frames into locations, attaches the labels once, and registers the new
sample under the structural key. -/
def AddTrace (env : Env) (heap : Nat → List Frame) (cfg : Config)
    (st : BuilderState) (t : ProfileStackTrace) (count : Int) : BuilderState :=
  let tal := t.trace_and_labels
  let content := heap tal.trace
  match alookup st.traceKeys (content, tal.labels) with
  | some idx =>
      { st with samples :=
          modifyAt st.samples idx fun s =>
            UpdateSampleValues s count t.metric_value }
  | none =>
      let skip := SkipTopNativeFrames cfg env content
      let r := resolveFrames env (content.drop skip) st.lb
      let s := InitSampleValues ⟨r.1, tal.labels, 0, 0⟩ count t.metric_value
      { st with
          samples := st.samples ++ [s],
          traceKeys := st.traceKeys ++ [((content, tal.labels), st.samples.length)],
          lb := r.2 }

/-- `ProfileProtoBuilder::AddTraces(traces, num_traces)`: each trace is
one occurrence. -/
def AddTraces (env : Env) (heap : Nat → List Frame) (cfg : Config)
    (st : BuilderState) (traces : List ProfileStackTrace) : BuilderState :=
  traces.foldl (fun s t => AddTrace env heap cfg s t 1) st

/-- `ProfileProtoBuilder::AddTraces(traces, counts, num_traces)`: each
trace carries an explicit occurrence count. -/
def AddTracesWithCounts (env : Env) (heap : Nat → List Frame) (cfg : Config)
    (st : BuilderState) (traces : List (ProfileStackTrace × Int)) : BuilderState :=
  traces.foldl (fun s t => AddTrace env heap cfg s t.1 t.2) st

/-- Modelled from the spec: the body of
`ProfileProtoBuilder::AddArtificialTrace` is not under `src/`.  Per the
spec it adds one synthetic single-frame sample whose function name is
the given name, with the explicit occurrence count and a weight
back-scaled by the assumed sampling rate. -/
def AddArtificialTrace (st : BuilderState) (name : String) (count : Int)
    (sampling_rate : Int) : BuilderState :=
  let r := LocationForA st.lb ⟨"", name, "", 0, 0, 0⟩
  let s : Sample := ⟨[r.1], [], count, count * sampling_rate⟩
  { st with samples := st.samples ++ [s], lb := r.2 }

/-- The finished, immutable profile document: metadata, the sample list
and the location table. -/
structure Profile where
  meta : ProfileMeta
  sample_list : List Sample
  location_table : List (LocationInfo × Nat)
deriving DecidableEq

/-- Modelled from the spec: the body of
`ProfileProtoBuilder::CreateSampledProto` is not under `src/`; its
in-source doc comment says it builds the proto without normalizing the
sampled metrics, so it finalizes the accumulated samples unchanged. -/
def CreateSampledProto (st : BuilderState) : Profile :=
  ⟨st.meta, st.samples, st.lb.locations⟩

/-- Modelled from the spec: the body of `CalculateSamplingRatio` is not
under `src/`.  Per the spec and the in-source comment, heap samples are
collected by a Poisson process with average rate R, a sample of average
size S is captured with probability 1 - exp(-S/R), and the unsampling
ratio inverts that probability; a zero count or a zero average size
leaves the sample unscaled (ratio one). -/
noncomputable def CalculateSamplingRatio (rate count metric_value : Int) : ℝ :=
  if count = 0 then 1
  else
    if (metric_value : ℝ) / (count : ℝ) = 0 then 1
    else
      1 / (1 - Real.exp (-((metric_value : ℝ) / (count : ℝ)) / (rate : ℝ)))

/-- Modelled from the spec: the per-sample step of
`ProfileProtoBuilder::UnsampleMetrics` (body not under `src/`): both
numeric values are scaled by the sampling ratio and rounded to the
nearest integer. -/
noncomputable def unsampleSample (rate : Int) (s : Sample) : Sample :=
  let ratio := CalculateSamplingRatio rate s.count s.metric
  { s with
      count := round ((s.count : ℝ) * ratio),
      metric := round ((s.metric : ℝ) * ratio) }

/-- Modelled from the spec: `ProfileProtoBuilder::UnsampleMetrics`
(body not under `src/`) applies the unsampling correction to every
accumulated sample in one final pass. -/
noncomputable def UnsampleMetrics (rate : Int) (samples : List Sample) : List Sample :=
  samples.map (unsampleSample rate)

/-- Modelled from the spec: the body of
`ProfileProtoBuilder::CreateUnsampledProto` is not under `src/`; per
its in-source doc comment it builds the proto after unsampling the
sample metrics. -/
noncomputable def CreateUnsampledProto (st : BuilderState) : Profile :=
  ⟨st.meta, UnsampleMetrics st.sampling_rate st.samples, st.lb.locations⟩

/-- `CpuProfileProtoBuilder::CreateProto` returns
`CreateSampledProto()` (in-source body). -/
def CpuCreateProto (st : BuilderState) : Profile := CreateSampledProto st

/-- `HeapProfileProtoBuilder::CreateProto` returns
`CreateUnsampledProto()` (in-source body). -/
noncomputable def HeapCreateProto (st : BuilderState) : Profile :=
  CreateUnsampledProto st

/-- Modelled from the spec: the body of
`ContentionProfileProtoBuilder::MultiplyBySamplingRate` is not under
`src/`; its in-source doc comment says it multiplies the (count,
metric) values by the sampling rate. -/
def MultiplyBySamplingRate (rate : Int) (samples : List Sample) : List Sample :=
  samples.map fun s => { s with count := s.count * rate, metric := s.metric * rate }

/-- `ContentionProfileProtoBuilder::CreateProto` (in-source body):
multiply by the sampling rate, then finalize. -/
def ContentionCreateProto (st : BuilderState) : Profile :=
  ⟨st.meta, MultiplyBySamplingRate st.sampling_rate st.samples, st.lb.locations⟩

/-- Modelled from the spec: the base `ProfileProtoBuilder` constructor
(body not under `src/`) declares the count and metric sample types and
sets the period type from the metric type; period, duration and default
sample type start unset. -/
def mkBuilder (rate : Int) (count_type metric_type : String × String) :
    BuilderState :=
  ⟨⟨[count_type, metric_type], metric_type, 0, 0, ""⟩, rate, [], [], initLB⟩

/-- The `CpuProfileProtoBuilder` constructor (in-source body): sample
types samples/count and cpu/nanoseconds, duration and period set. -/
def cpuInit (duration_ns rate : Int) : BuilderState :=
  let b := mkBuilder rate ("samples", "count") ("cpu", "nanoseconds")
  { b with meta :=
      { b.meta with duration_nanos := duration_ns, period := rate } }

/-- The `HeapProfileProtoBuilder` constructor (in-source body): sample
types inuse_objects/count and inuse_space/bytes, no extra metadata. -/
def heapInit (rate : Int) : BuilderState :=
  mkBuilder rate ("inuse_objects", "count") ("inuse_space", "bytes")

/-- The `ContentionProfileProtoBuilder` constructor (in-source body):
sample types contentions/count and delay/microseconds, duration and
period set, and the explicit default sample type set to delay. -/
def contentionInit (duration_ns rate : Int) : BuilderState :=
  let b := mkBuilder rate ("contentions", "count") ("delay", "microseconds")
  { b with meta :=
      { b.meta with
          duration_nanos := duration_ns
          period := rate
          default_sample_type := "delay" } }

/-- A constructed builder object: its resolution environment, its
configuration and its state. -/
structure BuilderObj where
  env : Env
  cfg : Config
  st : BuilderState

/-- Modelled from the spec: the body of `ProfileProtoBuilder::ForHeap`
is not under `src/`; per its in-source doc comment it accepts a null
frame cache and a null `jvmti_env` and always constructs a heap
builder. -/
def ForHeap (jni : Option Unit) (jvmti : Option (Int → Option MethodData))
    (sampling_rate : Int) (cache : Option FrameCache) : Option BuilderObj :=
  some ⟨⟨jvmti, cache⟩, ⟨sampling_rate, false, []⟩, heapInit sampling_rate⟩

/-- Modelled from the spec: the body of `ProfileProtoBuilder::ForCpu`
is not under `src/`; per the in-source doc comment the non-heap factory
methods fail an assertion when given a null cache, modelled as
returning nothing. -/
def ForCpu (jni : Option Unit) (jvmti : Option (Int → Option MethodData))
    (duration_ns sampling_rate : Int) (cache : Option FrameCache) :
    Option BuilderObj :=
  match cache with
  | none => none
  | some c =>
      some ⟨⟨jvmti, some c⟩, ⟨sampling_rate, false, []⟩,
        cpuInit duration_ns sampling_rate⟩

/-- Modelled from the spec: the body of
`ProfileProtoBuilder::ForContention` is not under `src/`; like `ForCpu`
it fails an assertion when given a null cache. -/
def ForContention (jni : Option Unit) (jvmti : Option (Int → Option MethodData))
    (duration_ns sampling_rate : Int) (cache : Option FrameCache) :
    Option BuilderObj :=
  match cache with
  | none => none
  | some c =>
      some ⟨⟨jvmti, some c⟩, ⟨sampling_rate, false, []⟩,
        contentionInit duration_ns sampling_rate⟩

/-- The function-table update made by a `LocationFor` miss: the function
record (class, name, file, start line) is appended unless present. -/
def funcsUpd (st : LBState) (a : LocationArgs) :
    List (String × String × String × Int) :=
  if (a.class_name, a.function_name, a.file_name, a.start_line) ∈ st.functions
  then st.functions
  else st.functions ++ [(a.class_name, a.function_name, a.file_name, a.start_line)]

/-- Well-formedness of the location interner state: every cached id is
below the fresh counter, distinct entries never share an id unless they
share a key, and a key determines its id. -/
def lbInv (st : LBState) : Prop :=
  (∀ p ∈ st.locations, p.2 < st.nextId) ∧
  (∀ p ∈ st.locations, ∀ q ∈ st.locations, p.2 = q.2 → p.1 = q.1) ∧
  (∀ p ∈ st.locations, ∀ q ∈ st.locations, p.1 = q.1 → p.2 = q.2)

/-! Helper lemmas about association-list lookup. -/

theorem alookup_mem {α : Type} [DecidableEq α] :
    ∀ (l : List (α × Nat)) (k : α) (i : Nat),
      alookup l k = some i → (k, i) ∈ l := by
  intro l
  induction l with
  | nil => intro k i h; simp [alookup] at h
  | cons p rest ih =>
      intro k i h
      obtain ⟨pk, pv⟩ := p
      by_cases hk : k = pk
      · subst hk
        simp [alookup] at h
        subst h
        exact List.mem_cons_self _ _
      · simp [alookup, hk] at h
        exact List.mem_cons_of_mem _ (ih k i h)

theorem alookup_eq_none_notMem {α : Type} [DecidableEq α] :
    ∀ (l : List (α × Nat)) (k : α),
      alookup l k = none → ∀ i, (k, i) ∉ l := by
  intro l
  induction l with
  | nil => intro k _ i; simp
  | cons p rest ih =>
      intro k h i hmem
      obtain ⟨pk, pv⟩ := p
      by_cases hk : k = pk
      · subst hk; simp [alookup] at h
      · simp [alookup, hk] at h
        rcases List.mem_cons.mp hmem with heq | hmem2
        · exact hk (congrArg Prod.fst heq)
        · exact ih k h i hmem2

theorem alookup_append_some {α : Type} [DecidableEq α] :
    ∀ (l m : List (α × Nat)) (k : α) (i : Nat),
      alookup l k = some i → alookup (l ++ m) k = some i := by
  intro l
  induction l with
  | nil => intro m k i h; simp [alookup] at h
  | cons p rest ih =>
      intro m k i h
      obtain ⟨pk, pv⟩ := p
      by_cases hk : k = pk
      · subst hk; simp [alookup] at h ⊢; exact h
      · simp [alookup, hk] at h ⊢; exact ih m k i h

theorem alookup_append_none {α : Type} [DecidableEq α] :
    ∀ (l m : List (α × Nat)) (k : α),
      alookup l k = none → alookup (l ++ m) k = alookup m k := by
  intro l
  induction l with
  | nil => intro m k _; simp
  | cons p rest ih =>
      intro m k h
      obtain ⟨pk, pv⟩ := p
      by_cases hk : k = pk
      · subst hk; simp [alookup] at h
      · simp [alookup, hk] at h ⊢; exact ih m k h

/-! Helper lemmas about the skip-frame scan. -/

theorem countWhile_le_length {α : Type} (p : α → Bool) :
    ∀ l : List α, countWhile p l ≤ l.length := by
  intro l
  induction l with
  | nil => simp [countWhile]
  | cons a as ih =>
      by_cases h : p a
      · simp [countWhile, h]; omega
      · simp [countWhile, h]

theorem countWhile_take {α : Type} (p : α → Bool) :
    ∀ l : List α, ∀ f ∈ l.take (countWhile p l), p f = true := by
  intro l
  induction l with
  | nil => simp
  | cons a as ih =>
      by_cases h : p a
      · intro f hf
        simp [countWhile, h] at hf
        rcases hf with rfl | hf2
        · exact h
        · exact ih f hf2
      · intro f hf
        simp [countWhile, h] at hf

theorem countWhile_get {α : Type} (p : α → Bool) :
    ∀ (l : List α) (x : α),
      l[countWhile p l]? = some x → p x = false := by
  intro l
  induction l with
  | nil => intro x h; simp at h
  | cons a as ih =>
      intro x h
      by_cases hp : p a
      · simp [countWhile, hp] at h
        exact ih x h
      · simp [countWhile, hp] at h
        subst h
        simpa using hp

theorem countWhile_eq_length {α : Type} (p : α → Bool) :
    ∀ l : List α, (∀ f ∈ l, p f = true) → countWhile p l = l.length := by
  intro l
  induction l with
  | nil => simp [countWhile]
  | cons a as ih =>
      intro h
      have ha : p a = true := h a (List.mem_cons_self _ _)
      simp [countWhile, ha]
      exact ih fun f hf => h f (List.mem_cons_of_mem _ hf)

/-! Helper lemmas about the location interner. -/

theorem LocationForA_unfold (st : LBState) (a : LocationArgs) :
    LocationForA st a =
      match alookup st.locations (locKey a) with
      | some id0 => (id0, st)
      | none =>
          (st.nextId,
            ⟨st.locations ++ [(locKey a, st.nextId)], funcsUpd st a,
              st.nextId + 1⟩) := by
  unfold LocationForA LocationFor funcsUpd locKey
  rfl

theorem LocationForA_hit {st : LBState} {a : LocationArgs} {i : Nat}
    (h : alookup st.locations (locKey a) = some i) :
    LocationForA st a = (i, st) := by
  rw [LocationForA_unfold, h]

theorem LocationForA_miss {st : LBState} {a : LocationArgs}
    (h : alookup st.locations (locKey a) = none) :
    LocationForA st a =
      (st.nextId,
        ⟨st.locations ++ [(locKey a, st.nextId)], funcsUpd st a,
          st.nextId + 1⟩) := by
  rw [LocationForA_unfold, h]

theorem LocationForA_lookup_self (st : LBState) (a : LocationArgs) :
    alookup (LocationForA st a).2.locations (locKey a) =
      some (LocationForA st a).1 := by
  cases h : alookup st.locations (locKey a) with
  | some i => rw [LocationForA_hit h]; exact h
  | none =>
      rw [LocationForA_miss h]
      have := alookup_append_none st.locations [(locKey a, st.nextId)] (locKey a) h
      simp only []
      rw [this]
      simp [alookup]

theorem LocationForA_persist {st : LBState} {k : LocationInfo} {i : Nat}
    (a : LocationArgs) (h : alookup st.locations k = some i) :
    alookup (LocationForA st a).2.locations k = some i := by
  cases h2 : alookup st.locations (locKey a) with
  | some j => rw [LocationForA_hit h2]; exact h
  | none =>
      rw [LocationForA_miss h2]
      exact alookup_append_some st.locations [(locKey a, st.nextId)] k i h

theorem runFor_nil (st : LBState) : runFor st [] = st := rfl

theorem runFor_cons (st : LBState) (a : LocationArgs) (as : List LocationArgs) :
    runFor st (a :: as) = runFor (LocationForA st a).2 as := rfl

theorem runFor_persist {k : LocationInfo} {i : Nat} :
    ∀ (reqs : List LocationArgs) (st : LBState),
      alookup st.locations k = some i →
      alookup (runFor st reqs).locations k = some i := by
  intro reqs
  induction reqs with
  | nil => intro st h; exact h
  | cons a as ih =>
      intro st h
      rw [runFor_cons]
      exact ih _ (LocationForA_persist a h)

theorem lbInv_initLB : lbInv initLB := by
  refine ⟨?_, ?_, ?_⟩ <;> simp [initLB]

theorem lbInv_LocationForA {st : LBState} (a : LocationArgs)
    (h : lbInv st) : lbInv (LocationForA st a).2 := by
  obtain ⟨hlt, hid, hkey⟩ := h
  cases h2 : alookup st.locations (locKey a) with
  | some i => rw [LocationForA_hit h2]; exact ⟨hlt, hid, hkey⟩
  | none =>
      rw [LocationForA_miss h2]
      have hnot := alookup_eq_none_notMem st.locations (locKey a) h2
      refine ⟨?_, ?_, ?_⟩
      · intro p hp
        rcases List.mem_append.mp hp with hp1 | hp2
        · exact Nat.lt_trans (hlt p hp1) (Nat.lt_succ_self _)
        · simp at hp2; subst hp2; exact Nat.lt_succ_self _
      · intro p hp q hq heq
        rcases List.mem_append.mp hp with hp1 | hp1 <;>
          rcases List.mem_append.mp hq with hq1 | hq1
        · exact hid p hp1 q hq1 heq
        · simp at hq1; subst hq1
          exact absurd heq (Nat.ne_of_lt (hlt p hp1))
        · simp at hp1; subst hp1
          exact absurd heq.symm (Nat.ne_of_lt (hlt q hq1))
        · simp at hp1 hq1; subst hp1; subst hq1; rfl
      · rintro ⟨p1, p2⟩ hp ⟨q1, q2⟩ hq heq
        simp only [] at heq
        rcases List.mem_append.mp hp with hp1 | hp1 <;>
          rcases List.mem_append.mp hq with hq1 | hq1
        · exact hkey ⟨p1, p2⟩ hp1 ⟨q1, q2⟩ hq1 heq
        · simp at hq1
          exfalso
          apply hnot p2
          rw [show p1 = locKey a by rw [heq, hq1.1]] at hp1
          exact hp1
        · simp at hp1
          exfalso
          apply hnot q2
          rw [show q1 = locKey a by rw [← heq, hp1.1]] at hq1
          exact hq1
        · simp at hp1 hq1
          rw [hp1.2, hq1.2]

theorem lbInv_runFor :
    ∀ (reqs : List LocationArgs) (st : LBState),
      lbInv st → lbInv (runFor st reqs) := by
  intro reqs
  induction reqs with
  | nil => intro st h; exact h
  | cons a as ih =>
      intro st h
      rw [runFor_cons]
      exact ih _ (lbInv_LocationForA a h)

/-! Unfolding lemmas for trace ingestion. -/

theorem AddTrace_hit (env : Env) (heap : Nat → List Frame) (cfg : Config)
    (st : BuilderState) (m : Int) (a : Nat) (L : List SampleLabel)
    (count : Int) (idx : Nat)
    (h : alookup st.traceKeys (heap a, L) = some idx) :
    AddTrace env heap cfg st ⟨m, ⟨a, L⟩⟩ count =
      { st with samples :=
          modifyAt st.samples idx fun s => UpdateSampleValues s count m } := by
  simp only [AddTrace]
  rw [h]

theorem AddTrace_miss (env : Env) (heap : Nat → List Frame) (cfg : Config)
    (st : BuilderState) (m : Int) (a : Nat) (L : List SampleLabel)
    (count : Int)
    (h : alookup st.traceKeys (heap a, L) = none) :
    AddTrace env heap cfg st ⟨m, ⟨a, L⟩⟩ count =
      { st with
          samples := st.samples ++
            [InitSampleValues
              ⟨(resolveFrames env
                  ((heap a).drop (SkipTopNativeFrames cfg env (heap a)))
                  st.lb).1, L, 0, 0⟩ count m],
          traceKeys := st.traceKeys ++ [((heap a, L), st.samples.length)],
          lb := (resolveFrames env
            ((heap a).drop (SkipTopNativeFrames cfg env (heap a))) st.lb).2 } := by
  simp only [AddTrace]
  rw [h]

/-- Claim C3, amended: within one build, location interning is keyed by
the five-field `LocationInfo` tuple (class name, function name, file
name, line number, address) — `start_line` is not part of the key: two
interning calls, separated by any other interning calls, return the same
location exactly when those five fields all match. -/
theorem C3_location_interning_five_field_key (st : LBState) (hinv : lbInv st)
    (a1 : LocationArgs) (mid : List LocationArgs) (a2 : LocationArgs) :
    (LocationForA (runFor (LocationForA st a1).2 mid) a2).1 =
        (LocationForA st a1).1 ↔
      locKey a2 = locKey a1 := by
  have h1 : alookup (LocationForA st a1).2.locations (locKey a1) =
      some (LocationForA st a1).1 := LocationForA_lookup_self st a1
  have hm : alookup (runFor (LocationForA st a1).2 mid).locations (locKey a1) =
      some (LocationForA st a1).1 := runFor_persist mid _ h1
  have hinvm : lbInv (runFor (LocationForA st a1).2 mid) :=
    lbInv_runFor mid _ (lbInv_LocationForA a1 hinv)
  constructor
  · intro heq
    by_contra hne
    cases h2 : alookup (runFor (LocationForA st a1).2 mid).locations
        (locKey a2) with
    | some j =>
        rw [LocationForA_hit h2] at heq
        have heq2 : j = (LocationForA st a1).1 := heq
        have hmem2 := alookup_mem _ _ _ h2
        have hmem1 := alookup_mem _ _ _ hm
        exact hne (hinvm.2.1 _ hmem2 _ hmem1 heq2)
    | none =>
        rw [LocationForA_miss h2] at heq
        have heq2 : (runFor (LocationForA st a1).2 mid).nextId =
            (LocationForA st a1).1 := heq
        have hlt := hinvm.1 _ (alookup_mem _ _ _ hm)
        omega
  · intro hk
    rw [LocationForA_hit (by rw [hk]; exact hm)]

/-- Witness for the amended claim C3, at a concrete build: one prior
call, no interleaved calls, and a second call with the same five-field
key. -/
theorem C3_location_interning_five_field_key_witness :
    (LocationForA (runFor (LocationForA initLB
          ⟨"LFoo", "bar", "Foo.java", 3, 17, 0⟩).2 [])
        ⟨"LFoo", "bar", "Foo.java", 3, 17, 0⟩).1 =
      (LocationForA initLB ⟨"LFoo", "bar", "Foo.java", 3, 17, 0⟩).1 ↔
    locKey ⟨"LFoo", "bar", "Foo.java", 3, 17, 0⟩ =
      locKey ⟨"LFoo", "bar", "Foo.java", 3, 17, 0⟩ :=
  C3_location_interning_five_field_key initLB lbInv_initLB
    ⟨"LFoo", "bar", "Foo.java", 3, 17, 0⟩ []
    ⟨"LFoo", "bar", "Foo.java", 3, 17, 0⟩

/-- Counterexample to claim C3 as stated: two frames identical in class
name, function name, file name, line number and address but distinct in
`start_line` (1 versus 2) intern to the same location, not different
ones. -/
theorem C3_counterexample_start_line_not_in_key :
    (LocationForA (LocationForA initLB ⟨"LFoo", "bar", "Foo.java", 1, 17, 0⟩).2
        ⟨"LFoo", "bar", "Foo.java", 2, 17, 0⟩).1 =
      (LocationForA initLB ⟨"LFoo", "bar", "Foo.java", 1, 17, 0⟩).1 ∧
    (⟨"LFoo", "bar", "Foo.java", 1, 17, 0⟩ : LocationArgs).start_line ≠
      (⟨"LFoo", "bar", "Foo.java", 2, 17, 0⟩ : LocationArgs).start_line := by
  constructor
  · decide
  · decide

/-- Claim C1, amended: finalizing a CPU builder applies no per-sample
scaling: `CpuProfileProtoBuilder::CreateProto` returns
`CreateSampledProto`, which emits every accumulated sample's count and
metric unchanged; the fixed sampling rate is recorded as the profile's
period by the CPU constructor (exact-scale multiplication is performed
only by the contention builder's finalize). -/
theorem C1_cpu_finalize_unscaled (duration_ns rate : Int) (st : BuilderState) :
    (CpuCreateProto st).sample_list = st.samples ∧
    (cpuInit duration_ns rate).meta.period = rate ∧
    (cpuInit duration_ns rate).meta.duration_nanos = duration_ns :=
  ⟨rfl, rfl, rfl⟩

/-- Counterexample to claim C1 as stated: a CPU builder with sampling
rate 100 holding one accumulated sample with count 10 and metric 500
finalizes with count 10 and metric 500, not count 1000 and metric
50000. -/
theorem C1_counterexample_no_multiplication :
    (CpuCreateProto (AddTrace ⟨none, none⟩ (fun _ => []) ⟨100, false, []⟩
        (cpuInit 0 100) ⟨500, ⟨0, []⟩⟩ 10)).sample_list =
      [⟨[], [], 10, 500⟩] ∧
    (CpuCreateProto (AddTrace ⟨none, none⟩ (fun _ => []) ⟨100, false, []⟩
        (cpuInit 0 100) ⟨500, ⟨0, []⟩⟩ 10)).sample_list ≠
      [⟨[], [], 1000, 50000⟩] := by
  constructor
  · decide
  · decide

/-- Claim C9: the contention builder declares sample type
contentions/count and metric type delay/microseconds, sets the duration
and the period (equal to the sampling rate) and the explicit default
sample type "delay" in the document metadata, and its finalize
multiplies every sample's count and metric by the sampling rate. -/
theorem C9_contention_specialization (duration_ns rate : Int)
    (st : BuilderState) :
    (contentionInit duration_ns rate).meta =
      ⟨[("contentions", "count"), ("delay", "microseconds")],
        ("delay", "microseconds"), rate, duration_ns, "delay"⟩ ∧
    (ContentionCreateProto st).sample_list =
      st.samples.map (fun s =>
        { s with count := s.count * st.sampling_rate,
                 metric := s.metric * st.sampling_rate }) :=
  ⟨rfl, rfl⟩

/-- Claim C6: the unsampling arithmetic guards: a sample reaching heap
correction with count zero, or with zero average size (metric divided by
count equal to zero), is returned exactly as observed, unscaled. -/
theorem C6_unsample_guards (rate : Int) (s : Sample)
    (h : s.count = 0 ∨ (s.metric : ℝ) / (s.count : ℝ) = 0) :
    unsampleSample rate s = s := by
  have hr : CalculateSamplingRatio rate s.count s.metric = 1 := by
    unfold CalculateSamplingRatio
    rcases h with h0 | h0
    · rw [if_pos h0]
    · by_cases hc : s.count = 0
      · rw [if_pos hc]
      · rw [if_neg hc, if_pos h0]
  simp only [unsampleSample, hr, mul_one, round_intCast]

/-- Witness for claim C6: a zero-count sample is left untouched by the
heap correction. -/
theorem C6_unsample_guards_witness :
    unsampleSample 100 ⟨[], [], 0, 7⟩ = ⟨[], [], 0, 7⟩ :=
  C6_unsample_guards 100 ⟨[], [], 0, 7⟩ (Or.inl rfl)

/-- Claim C2: heap finalization applies the statistical unsampling once,
as a final pass mapping the correction over every accumulated sample
(never per-occurrence), and for a sample with count c > 0 and nonzero
average size m / c the corrected count is c / (1 - exp(-(m/c)/R)) and
the corrected metric is that corrected count times the average size,
each rounded to the nearest integer. -/
theorem C2_heap_statistical_unsample (st : BuilderState) (rate c m : Int)
    (locs : List Nat) (labels : List SampleLabel)
    (hc : 0 < c) (hm : (m : ℝ) / (c : ℝ) ≠ 0) :
    (HeapCreateProto st).sample_list =
      st.samples.map (unsampleSample st.sampling_rate) ∧
    unsampleSample rate ⟨locs, labels, c, m⟩ =
      ⟨locs, labels,
        round ((c : ℝ) /
          (1 - Real.exp (-((m : ℝ) / (c : ℝ)) / (rate : ℝ)))),
        round (((c : ℝ) /
            (1 - Real.exp (-((m : ℝ) / (c : ℝ)) / (rate : ℝ)))) *
          ((m : ℝ) / (c : ℝ)))⟩ := by
  refine ⟨rfl, ?_⟩
  have hc0 : (c : ℝ) ≠ 0 := Int.cast_ne_zero.mpr (by omega)
  have key : ∀ d : ℝ, (m : ℝ) * (1 / d) = ((c : ℝ) / d) * ((m : ℝ) / (c : ℝ)) := by
    intro d
    rw [mul_one_div, div_mul_div_comm, mul_comm d (c : ℝ),
      mul_div_mul_left _ _ hc0]
  simp only [unsampleSample, CalculateSamplingRatio]
  rw [if_neg (by omega : ¬ c = 0), if_neg hm]
  simp only [Sample.mk.injEq]
  refine ⟨trivial, trivial, ?_, ?_⟩
  · rw [mul_one_div]
  · rw [key]

/-- Witness for claim C2, at the spec's concrete scenario: one heap
sample with count 1 and metric 1048576 bytes under sampling rate
524288. -/
theorem C2_heap_statistical_unsample_witness :
    (HeapCreateProto (heapInit 524288)).sample_list =
      (heapInit 524288).samples.map
        (unsampleSample (heapInit 524288).sampling_rate) ∧
    unsampleSample 524288 ⟨[], [], 1, 1048576⟩ =
      ⟨[], [],
        round (((1 : Int) : ℝ) /
          (1 - Real.exp (-(((1048576 : Int) : ℝ) / ((1 : Int) : ℝ)) /
            ((524288 : Int) : ℝ)))),
        round ((((1 : Int) : ℝ) /
            (1 - Real.exp (-(((1048576 : Int) : ℝ) / ((1 : Int) : ℝ)) /
              ((524288 : Int) : ℝ)))) *
          (((1048576 : Int) : ℝ) / ((1 : Int) : ℝ)))⟩ :=
  C2_heap_statistical_unsample (heapInit 524288) 524288 1 1048576 [] []
    (by norm_num) (by norm_num)

/-- Claim C4: sample identity is keyed by structural trace-plus-label
equality, never by the buffer address: two physically distinct trace
buffers with identical frame content and identical labels collapse to
one sample, while identical content with different label sets produces
two distinct samples. -/
theorem C4_structural_sample_identity (env : Env) (heap : Nat → List Frame)
    (cfg : Config) (a1 a2 : Nat) (L1 L2 : List SampleLabel) (m1 m2 : Int)
    (st0 : BuilderState) (hkeys : st0.traceKeys = []) (hsam : st0.samples = [])
    (hcontent : heap a1 = heap a2) (haddr : a1 ≠ a2) :
    (L1 = L2 →
      (AddTraces env heap cfg st0
          [⟨m1, ⟨a1, L1⟩⟩, ⟨m2, ⟨a2, L2⟩⟩]).samples.length = 1) ∧
    (L1 ≠ L2 →
      (AddTraces env heap cfg st0
          [⟨m1, ⟨a1, L1⟩⟩, ⟨m2, ⟨a2, L2⟩⟩]).samples.length = 2) := by
  obtain ⟨meta0, rate0, sam0, keys0, lb0⟩ := st0
  dsimp only at hkeys hsam
  subst hkeys
  subst hsam
  constructor
  · intro hL
    subst hL
    simp [AddTraces, AddTrace, alookup, ← hcontent, modifyAt]
  · intro hL
    simp [AddTraces, AddTrace, alookup, ← hcontent, modifyAt, hL, Ne.symm hL]

/-- Claim C5: dedup accumulation: adding the same (trace, labels) pair
twice with metrics m1 and m2 yields exactly one sample with count 2 and
metric m1 + m2; the second (hit) add updates only the numeric fields —
the location interner state and the registered keys are untouched. -/
theorem C5_dedup_accumulation (env : Env) (heap : Nat → List Frame)
    (cfg : Config) (a : Nat) (L : List SampleLabel) (m1 m2 : Int)
    (st0 : BuilderState) (hkeys : st0.traceKeys = [])
    (hsam : st0.samples = []) :
    (AddTrace env heap cfg (AddTrace env heap cfg st0 ⟨m1, ⟨a, L⟩⟩ 1)
        ⟨m2, ⟨a, L⟩⟩ 1).samples =
      [⟨(resolveFrames env
          ((heap a).drop (SkipTopNativeFrames cfg env (heap a))) st0.lb).1,
        L, 2, m1 + m2⟩] ∧
    (AddTrace env heap cfg (AddTrace env heap cfg st0 ⟨m1, ⟨a, L⟩⟩ 1)
        ⟨m2, ⟨a, L⟩⟩ 1).lb =
      (AddTrace env heap cfg st0 ⟨m1, ⟨a, L⟩⟩ 1).lb ∧
    (AddTrace env heap cfg (AddTrace env heap cfg st0 ⟨m1, ⟨a, L⟩⟩ 1)
        ⟨m2, ⟨a, L⟩⟩ 1).traceKeys =
      (AddTrace env heap cfg st0 ⟨m1, ⟨a, L⟩⟩ 1).traceKeys := by
  obtain ⟨meta0, rate0, sam0, keys0, lb0⟩ := st0
  dsimp only at hkeys hsam ⊢
  subst hkeys
  subst hsam
  refine ⟨?_, ?_, ?_⟩ <;>
    simp [AddTrace, alookup, modifyAt, InitSampleValues,
      UpdateSampleValues]

/-- Claim C7: the skip-frame policy: with skip-top-native enabled,
ingestion of a fresh trace resolves locations starting at the first
frame whose function name does not match the skip-list — every earlier
frame matches, the frame at the skip count (when one exists) does not —
and a trace whose every frame is skip-listed still forms a sample, with
an empty location list. -/
theorem C7_skip_frame_policy (env : Env) (heap : Nat → List Frame)
    (cfg : Config) (a : Nat) (L : List SampleLabel) (m : Int)
    (st0 : BuilderState) (hkeys : st0.traceKeys = [])
    (hskip : cfg.skip_top_native_frames = true) :
    ((AddTrace env heap cfg st0 ⟨m, ⟨a, L⟩⟩ 1).samples =
      st0.samples ++
        [⟨(resolveFrames env
            ((heap a).drop (SkipTopNativeFrames cfg env (heap a)))
            st0.lb).1, L, 1, m⟩]) ∧
    (∀ f ∈ (heap a).take (SkipTopNativeFrames cfg env (heap a)),
        SkipFrame cfg (frameName env f) = true) ∧
    (∀ x, (heap a)[SkipTopNativeFrames cfg env (heap a)]? = some x →
        SkipFrame cfg (frameName env x) = false) ∧
    ((∀ f ∈ heap a, SkipFrame cfg (frameName env f) = true) →
      (AddTrace env heap cfg st0 ⟨m, ⟨a, L⟩⟩ 1).samples =
        st0.samples ++ [⟨[], L, 1, m⟩]) := by
  have h1 : alookup st0.traceKeys (heap a, L) = none := by rw [hkeys]; rfl
  have hcount : SkipTopNativeFrames cfg env (heap a) =
      countWhile (fun f => SkipFrame cfg (frameName env f)) (heap a) := by
    simp [SkipTopNativeFrames, hskip]
  refine ⟨?_, ?_, ?_, ?_⟩
  · rw [AddTrace_miss env heap cfg st0 m a L 1 h1]
    simp [InitSampleValues]
  · rw [hcount]
    exact countWhile_take _ _
  · rw [hcount]
    exact countWhile_get _ _
  · intro hall
    have hlen : SkipTopNativeFrames cfg env (heap a) = (heap a).length := by
      rw [hcount]
      exact countWhile_eq_length _ _ hall
    rw [AddTrace_miss env heap cfg st0 m a L 1 h1, hlen]
    simp [List.drop_length, resolveFrames, InitSampleValues]

/-- Claim C8: adding an artificial trace (name, count, assumed sampling
rate) to a heap builder yields exactly one sample holding a single
location whose function name is the given name, with metric count ×
assumed rate; heap finalization then emits that sample through the heap
unsampling correction. -/
theorem C8_artificial_trace (rate : Int) (name : String) (c ar : Int) :
    (AddArtificialTrace (heapInit rate) name c ar).samples =
      [⟨[0], [], c, c * ar⟩] ∧
    (AddArtificialTrace (heapInit rate) name c ar).lb.locations =
      [(⟨"", name, "", 0, 0⟩, 0)] ∧
    (⟨"", name, "", 0, 0⟩ : LocationInfo).function_name = name ∧
    (HeapCreateProto (AddArtificialTrace (heapInit rate) name c ar)).sample_list =
      [unsampleSample rate ⟨[0], [], c, c * ar⟩] :=
  ⟨rfl, rfl, rfl, rfl⟩

/-- Claim C10: factory null-capability asymmetry: `ForHeap` accepts a
null frame cache and a null `jvmti_env` (and with both null every frame
of every added trace resolves to the unknown location), whereas `ForCpu`
and `ForContention` fail on a null cache and succeed on a non-null
one. -/
theorem C10_factory_null_capability (jni : Option Unit)
    (jvmti : Option (Int → Option MethodData)) (duration_ns rate : Int) :
    ForHeap none none rate none =
      some ⟨⟨none, none⟩, ⟨rate, false, []⟩, heapInit rate⟩ ∧
    ForCpu jni jvmti duration_ns rate none = none ∧
    ForContention jni jvmti duration_ns rate none = none ∧
    (∀ c : FrameCache,
      (ForCpu jni jvmti duration_ns rate (some c)).isSome = true) ∧
    (∀ c : FrameCache,
      (ForContention jni jvmti duration_ns rate (some c)).isSome = true) ∧
    (∀ f : Frame, frameArgs ⟨none, none⟩ f = unknownArgs) := by
  refine ⟨rfl, rfl, rfl, fun c => rfl, fun c => rfl, fun f => ?_⟩
  unfold frameArgs
  split <;> rfl

/-- Witness for claim C4: two distinct buffer addresses (0 and 1) with
identical single-frame content, first with no labels and then with one
string label. -/
theorem C4_structural_sample_identity_witness :
    (([] : List SampleLabel) = [SampleLabel.ofString "thread" "main"] →
      (AddTraces ⟨none, none⟩ (fun _ => [⟨5, 1⟩]) ⟨100, false, []⟩
          (heapInit 100)
          [⟨7, ⟨0, []⟩⟩,
            ⟨9, ⟨1, [SampleLabel.ofString "thread" "main"]⟩⟩]).samples.length =
        1) ∧
    (([] : List SampleLabel) ≠ [SampleLabel.ofString "thread" "main"] →
      (AddTraces ⟨none, none⟩ (fun _ => [⟨5, 1⟩]) ⟨100, false, []⟩
          (heapInit 100)
          [⟨7, ⟨0, []⟩⟩,
            ⟨9, ⟨1, [SampleLabel.ofString "thread" "main"]⟩⟩]).samples.length =
        2) :=
  C4_structural_sample_identity ⟨none, none⟩ (fun _ => [⟨5, 1⟩])
    ⟨100, false, []⟩ 0 1 [] [SampleLabel.ofString "thread" "main"] 7 9
    (heapInit 100) rfl rfl rfl (by decide)

/-- Witness for claim C5: the same (trace, labels) pair added twice with
metrics 7 and 9 on a fresh heap builder. -/
theorem C5_dedup_accumulation_witness :
    (AddTrace ⟨none, none⟩ (fun _ => [⟨5, 1⟩]) ⟨100, false, []⟩
        (AddTrace ⟨none, none⟩ (fun _ => [⟨5, 1⟩]) ⟨100, false, []⟩
          (heapInit 100) ⟨7, ⟨0, []⟩⟩ 1)
        ⟨9, ⟨0, []⟩⟩ 1).samples =
      [⟨(resolveFrames ⟨none, none⟩
          (((fun _ => [⟨5, 1⟩]) 0).drop
            (SkipTopNativeFrames ⟨100, false, []⟩ ⟨none, none⟩
              ((fun _ => [⟨5, 1⟩]) 0))) (heapInit 100).lb).1,
        [], 2, 7 + 9⟩] ∧
    (AddTrace ⟨none, none⟩ (fun _ => [⟨5, 1⟩]) ⟨100, false, []⟩
        (AddTrace ⟨none, none⟩ (fun _ => [⟨5, 1⟩]) ⟨100, false, []⟩
          (heapInit 100) ⟨7, ⟨0, []⟩⟩ 1)
        ⟨9, ⟨0, []⟩⟩ 1).lb =
      (AddTrace ⟨none, none⟩ (fun _ => [⟨5, 1⟩]) ⟨100, false, []⟩
        (heapInit 100) ⟨7, ⟨0, []⟩⟩ 1).lb ∧
    (AddTrace ⟨none, none⟩ (fun _ => [⟨5, 1⟩]) ⟨100, false, []⟩
        (AddTrace ⟨none, none⟩ (fun _ => [⟨5, 1⟩]) ⟨100, false, []⟩
          (heapInit 100) ⟨7, ⟨0, []⟩⟩ 1)
        ⟨9, ⟨0, []⟩⟩ 1).traceKeys =
      (AddTrace ⟨none, none⟩ (fun _ => [⟨5, 1⟩]) ⟨100, false, []⟩
        (heapInit 100) ⟨7, ⟨0, []⟩⟩ 1).traceKeys :=
  C5_dedup_accumulation ⟨none, none⟩ (fun _ => [⟨5, 1⟩]) ⟨100, false, []⟩
    0 [] 7 9 (heapInit 100) rfl rfl

/-- Witness for claim C7: a four-frame native trace whose first two
frames carry a function name matching the skip-list pattern "Agent",
on a CPU builder configured to skip top native frames. -/
theorem C7_skip_frame_policy_witness :
    ((AddTrace ⟨none, some ⟨fun _ => unknownArgs,
          fun f => if f.methodId < 12 then "AgentStackWalk" else "userWork"⟩⟩
        (fun _ => [⟨-1, 10⟩, ⟨-1, 11⟩, ⟨-1, 12⟩, ⟨-1, 13⟩])
        ⟨100, true, ["Agent"]⟩ (cpuInit 0 100) ⟨42, ⟨0, []⟩⟩ 1).samples =
      (cpuInit 0 100).samples ++
        [⟨(resolveFrames ⟨none, some ⟨fun _ => unknownArgs,
              fun f => if f.methodId < 12 then "AgentStackWalk" else "userWork"⟩⟩
            (((fun _ => [⟨-1, 10⟩, ⟨-1, 11⟩, ⟨-1, 12⟩, ⟨-1, 13⟩]) 0).drop
              (SkipTopNativeFrames ⟨100, true, ["Agent"]⟩
                ⟨none, some ⟨fun _ => unknownArgs,
                  fun f => if f.methodId < 12 then "AgentStackWalk"
                    else "userWork"⟩⟩
                ((fun _ => [⟨-1, 10⟩, ⟨-1, 11⟩, ⟨-1, 12⟩, ⟨-1, 13⟩]) 0)))
            (cpuInit 0 100).lb).1, [], 1, 42⟩]) ∧
    (∀ f ∈ ((fun _ => [⟨-1, 10⟩, ⟨-1, 11⟩, ⟨-1, 12⟩, ⟨-1, 13⟩]) 0).take
        (SkipTopNativeFrames ⟨100, true, ["Agent"]⟩
          ⟨none, some ⟨fun _ => unknownArgs,
            fun f => if f.methodId < 12 then "AgentStackWalk"
              else "userWork"⟩⟩
          ((fun _ => [⟨-1, 10⟩, ⟨-1, 11⟩, ⟨-1, 12⟩, ⟨-1, 13⟩]) 0)),
        SkipFrame ⟨100, true, ["Agent"]⟩
          (frameName ⟨none, some ⟨fun _ => unknownArgs,
            fun f => if f.methodId < 12 then "AgentStackWalk"
              else "userWork"⟩⟩ f) = true) ∧
    (∀ x, ((fun _ => [⟨-1, 10⟩, ⟨-1, 11⟩, ⟨-1, 12⟩, ⟨-1, 13⟩]) 0)[
        SkipTopNativeFrames ⟨100, true, ["Agent"]⟩
          ⟨none, some ⟨fun _ => unknownArgs,
            fun f => if f.methodId < 12 then "AgentStackWalk"
              else "userWork"⟩⟩
          ((fun _ => [⟨-1, 10⟩, ⟨-1, 11⟩, ⟨-1, 12⟩, ⟨-1, 13⟩]) 0)]? =
          some x →
        SkipFrame ⟨100, true, ["Agent"]⟩
          (frameName ⟨none, some ⟨fun _ => unknownArgs,
            fun f => if f.methodId < 12 then "AgentStackWalk"
              else "userWork"⟩⟩ x) = false) ∧
    ((∀ f ∈ ((fun _ => [⟨-1, 10⟩, ⟨-1, 11⟩, ⟨-1, 12⟩, ⟨-1, 13⟩]) 0),
        SkipFrame ⟨100, true, ["Agent"]⟩
          (frameName ⟨none, some ⟨fun _ => unknownArgs,
            fun f => if f.methodId < 12 then "AgentStackWalk"
              else "userWork"⟩⟩ f) = true) →
      (AddTrace ⟨none, some ⟨fun _ => unknownArgs,
          fun f => if f.methodId < 12 then "AgentStackWalk" else "userWork"⟩⟩
        (fun _ => [⟨-1, 10⟩, ⟨-1, 11⟩, ⟨-1, 12⟩, ⟨-1, 13⟩])
        ⟨100, true, ["Agent"]⟩ (cpuInit 0 100) ⟨42, ⟨0, []⟩⟩ 1).samples =
        (cpuInit 0 100).samples ++ [⟨[], [], 1, 42⟩]) :=
  C7_skip_frame_policy ⟨none, some ⟨fun _ => unknownArgs,
      fun f => if f.methodId < 12 then "AgentStackWalk" else "userWork"⟩⟩
    (fun _ => [⟨-1, 10⟩, ⟨-1, 11⟩, ⟨-1, 12⟩, ⟨-1, 13⟩])
    ⟨100, true, ["Agent"]⟩ 0 [] 42 (cpuInit 0 100) rfl rfl
